import Mathlib

/-
Verification of the interaction/state layer of the "find a way" grid
path-planning GUI, shallowly embedded from src/find a way/interface.py
(class Interface).  Rendering calls (draw, render_text, blit) mutate only
the display cache and are omitted; every state field that the interaction
logic reads or writes is modelled.  Pixel geometry of the on-screen text
hot-zones depends on font metrics, so hot-zone hit tests are abstracted as
boolean inputs of a pointer event, while the grid-area hit test
pg.Rect(20,20,400,240).collidepoint is modelled exactly.
-/

set_option autoImplicit false
set_option maxRecDepth 8000

namespace FindAWay

/-- A grid cell: interface.py identifies cells by integer (column, row)
pairs produced by floor division of the mouse position; border cells use
coordinates down to -1. -/
abbrev Cell := Int × Int

/-- The six interaction modes of interface.py (string literals in the
source: "START", "GOAL", "BARRIER", "RUN", "SOLVED", "FAILED"). -/
inductive Mode where
  | START
  | GOAL
  | BARRIER
  | RUN
  | SOLVED
  | FAILED
deriving DecidableEq, Repr

/-- Value of the external solver attribute Solver.solution: the empty
list (pending, falsy in Python), the string sentinel "NO SOLUTION", or a
path given as a list of cells. -/
inductive SolVal where
  | pending
  | noSolution
  | path (p : List Cell)
deriving DecidableEq, Repr

/-- Python truthiness of a Solver.solution value: the empty list is
falsy, the sentinel string and a nonempty path list are truthy. -/
def SolVal.truthy : SolVal → Bool
  | SolVal.pending => false
  | SolVal.noSolution => true
  | SolVal.path p => !p.isEmpty

/-- Modelled from the spec: the solver module (class solver.Star,
imported by interface.py) is not present under src.  Per the
SolverBridge contract, evaluate advances the search by one discrete unit
of work and solution transitions exactly once from pending to either a
path or the no-solution sentinel; this is modelled by a fuel counter
counting the remaining units of work before the predetermined outcome
becomes visible.  The closedSet field is exposed for visualization only
and is not modelled. -/
structure Star where
  fuel : Nat
  result : SolVal
deriving DecidableEq, Repr

/-- Modelled from the spec: one call of Solver.evaluate performs one
discrete unit of work. -/
def Star.evaluate (sv : Star) : Star := { sv with fuel := sv.fuel - 1 }

/-- Modelled from the spec: Solver.solution stays pending until the work
is exhausted, then is the predetermined outcome, and never changes
again. -/
def Star.solution (sv : Star) : SolVal :=
  if sv.fuel = 0 then sv.result else SolVal.pending

/-- Fuel-indexed unfolding of the blocking loop in Interface.update:
while not self.Solver.solution: self.Solver.evaluate(). -/
def runLoop : Nat → Star → Star
  | 0, sv => sv
  | Nat.succ n, sv =>
      if SolVal.truthy (Star.solution sv) then sv
      else runLoop n (Star.evaluate sv)

/-- The blocking loop of Interface.update run to completion: a budget of
fuel + 1 iterations suffices because each evaluate call consumes one unit
of fuel. -/
def Star.runToSolution (sv : Star) : Star := runLoop (sv.fuel + 1) sv

/-- How a new solver is constructed on entering RUN mode
(solver.Star(self.start_cell, self.goal_cell, self.piece_type,
self.barriers)); the search behaviour itself is an oracle. -/
abbrev MkSolver := Option Cell → Option Cell → String → Finset Cell → Star

/-- self.options = ("rook","queen","knight") from Interface.__init__. -/
def options : List String := ["rook", "queen", "knight"]

/-- Outcomes of the hot-zone hit tests
self.rendered[key][1].collidepoint(self.mouse) performed by
Interface.left_button_clicked; the rectangles depend on font metrics, so
they are abstract boolean inputs here.  Fields correspond to the keys
"MOVE", "ANIM", "BARRIER", "ENTER", "RESET". -/
structure HotHits where
  move : Bool
  anim : Bool
  barrier : Bool
  enter : Bool
  reset : Bool
deriving DecidableEq, Repr

/-- The keys Interface.hotkeys distinguishes: K_1, K_2, K_3, K_d,
K_SPACE, K_RETURN, K_i, and any other key. -/
inductive Key where
  | k1
  | k2
  | k3
  | kd
  | kspace
  | kreturn
  | ki
  | kother
deriving DecidableEq, Repr

/-- The pygame events Interface.get_event dispatches on.  A mouse event
carries the pointer position (pg.mouse.get_pos(), nonnegative window
coordinates); a button-down also carries which buttons
pg.mouse.get_pressed() reports and the hot-zone hit results.  The source
never reads event.button, so a button-up only records the (ignored)
button number. -/
inductive PgEvent where
  | mouseDown (left right : Bool) (m : Nat × Nat) (hits : HotHits)
  | mouseUp (button : Nat) (m : Nat × Nat)
  | keyDown (k : Key) (m : Nat × Nat)

/-- The mutable session state of class Interface (display-only fields
self.image, self.font, self.rendered, self.mouse, self.target omitted;
self.mouse/self.target are recomputed from the live pointer position at
each use, so they are passed as arguments instead of stored). -/
structure Interface where
  animate : Bool
  piece_type : String
  start_cell : Option Cell
  goal_cell : Option Cell
  barriers : Finset Cell
  mode : Mode
  add_barrier : Bool
  del_barrier : Bool
  Solver : Option Star
  solution : List Cell
  time_start : Nat
  time_end : Nat
deriving DecidableEq

/-- Interface.setup_barriers: the two-cell-thick boundary border.  The
source adds (i,j) for i in range(-1,23), j in (-1,0,13,14) and (i,j) for
j in range(-1,15), i in (-1,0,21,22). -/
def setup_barriers : Finset Cell :=
  (Finset.Icc (-1 : Int) 22 ×ˢ ({-1, 0, 13, 14} : Finset Int)) ∪
    (({-1, 0, 21, 22} : Finset Int) ×ˢ Finset.Icc (-1 : Int) 14)

/-- Interface.get_target: cell under the pointer, by floor division by
the hardcoded cell size (20,20). -/
def target (m : Nat × Nat) : Cell := (((m.1 / 20 : Nat) : Int), ((m.2 / 20 : Nat) : Int))

/-- pg.Rect(20,20,400,240).collidepoint(self.mouse): true strictly inside
the right and bottom edges. -/
def inGrid (m : Nat × Nat) : Bool :=
  decide (20 ≤ m.1 ∧ m.1 < 420 ∧ 20 ≤ m.2 ∧ m.2 < 260)

/-- Interface.reset(full): a full reset restores the initial grid state
(setup_barriers also clears both drag flags); reset(False) only discards
the solver and returns the mode to BARRIER. -/
def reset (full : Bool) (s : Interface) : Interface :=
  if full then
    { s with
      mode := Mode.START
      start_cell := none
      goal_cell := none
      barriers := setup_barriers
      add_barrier := false
      del_barrier := false
      Solver := none
      time_end := 0
      time_start := 0
      solution := [] }
  else { s with Solver := none, mode := Mode.BARRIER }

/-- Interface.toggle_animate: flips the animate flag unless mode is RUN. -/
def toggle_animate (s : Interface) : Interface :=
  if s.mode ≠ Mode.RUN then { s with animate := !s.animate } else s

/-- Index selected by Interface.toggle_piece: the source tests
"if not ind", so both ind=None and ind=0 (falsy) cycle to the next
option; any other supplied index is used directly. -/
def pieceIdx (ind : Option Nat) (p : String) : Nat :=
  match ind with
  | none => (options.indexOf p + 1) % options.length
  | some n =>
      if n = 0 then (options.indexOf p + 1) % options.length else n

/-- Interface.toggle_piece(ind): unless mode is RUN, sets piece_type to
self.options[ind] with the falsy-index behaviour of pieceIdx.  All
reachable indices are in range, so the getD default is never used. -/
def toggle_piece (ind : Option Nat) (s : Interface) : Interface :=
  if s.mode ≠ Mode.RUN then
    { s with piece_type := options.getD (pieceIdx ind s.piece_type) "rook" }
  else s

/-- Interface.left_button_clicked, reading the pointer position and the
hot-zone hit results. -/
def left_button_clicked (m : Nat × Nat) (hits : HotHits) (s : Interface) : Interface :=
  if inGrid m then
    match s.mode with
    | Mode.START =>
        if some (target m) ≠ s.goal_cell ∧ target m ∉ s.barriers then
          { s with
            start_cell := some (target m)
            mode := if s.goal_cell.isSome then Mode.BARRIER else Mode.GOAL }
        else s
    | Mode.GOAL =>
        if some (target m) ≠ s.start_cell ∧ target m ∉ s.barriers then
          { s with goal_cell := some (target m), mode := Mode.BARRIER }
        else s
    | Mode.BARRIER => { s with add_barrier := true }
    | _ => s
  else if hits.move then toggle_piece none s
  else if hits.anim then toggle_animate s
  else if s.mode = Mode.BARRIER ∧ hits.barrier then { s with mode := Mode.RUN }
  else if s.mode = Mode.SOLVED ∨ s.mode = Mode.FAILED then
    if hits.enter then reset true s
    else if hits.reset then reset false s
    else s
  else s

/-- Interface.right_button_clicked. -/
def right_button_clicked (m : Nat × Nat) (s : Interface) : Interface :=
  if s.mode ≠ Mode.RUN then
    if s.start_cell = some (target m) then
      { s with start_cell := none, mode := Mode.START }
    else if s.goal_cell = some (target m) then
      { s with
        goal_cell := none
        mode := if s.start_cell.isSome then Mode.GOAL else Mode.START }
    else if s.mode = Mode.BARRIER then { s with del_barrier := true }
    else s
  else s

/-- int(event.unicode) - 1 for the numeric keys dispatched by
Interface.hotkeys. -/
def keyIdx : Key → Nat
  | Key.k1 => 0
  | Key.k2 => 1
  | Key.k3 => 2
  | _ => 0

/-- Interface.hotkeys. -/
def hotkeys (k : Key) (s : Interface) : Interface :=
  if k = Key.k1 ∨ k = Key.k2 ∨ k = Key.k3 then
    toggle_piece (some (keyIdx k)) s
  else if k = Key.kd then toggle_animate s
  else if s.mode = Mode.BARRIER ∧ k = Key.kspace then { s with mode := Mode.RUN }
  else if s.mode = Mode.SOLVED ∨ s.mode = Mode.FAILED then
    if k = Key.kreturn then reset true s
    else if k = Key.ki then reset false s
    else s
  else s

/-- Interface.get_event: dispatch of one pygame event. -/
def get_event (e : PgEvent) (s : Interface) : Interface :=
  match e with
  | PgEvent.mouseDown l r m hits =>
      if l then left_button_clicked m hits s
      else if r then right_button_clicked m s
      else s
  | PgEvent.mouseUp _ _ => { s with add_barrier := false, del_barrier := false }
  | PgEvent.keyDown k _ => hotkeys k s

/-- Interface.add_barriers: per-frame continuous painting or erasing of
the cell under the pointer while in BARRIER mode. -/
def add_barriers (m : Nat × Nat) (s : Interface) : Interface :=
  if s.mode = Mode.BARRIER then
    if inGrid m then
      if s.start_cell ≠ some (target m) ∧ s.goal_cell ≠ some (target m) then
        if s.add_barrier then { s with barriers := insert (target m) s.barriers }
        else if s.del_barrier then { s with barriers := s.barriers.erase (target m) }
        else s
      else s
    else s
  else s

/-- Interface.found_solution.  The source reads self.Solver.solution; the
none branch is unreachable from the only call site (Interface.update
checks the solver exists and its solution is truthy first). -/
def found_solution (ticks : Nat) (s : Interface) : Interface :=
  match s.Solver with
  | some sv =>
      match Star.solution sv with
      | SolVal.noSolution => { s with time_end := ticks, mode := Mode.FAILED }
      | SolVal.path p =>
          { s with time_end := ticks, solution := p, mode := Mode.SOLVED }
      | SolVal.pending =>
          { s with time_end := ticks, solution := [], mode := Mode.SOLVED }
  | none => { s with time_end := ticks }

/-- Final statement of the RUN branch of Interface.update: if
self.Solver.solution is truthy, call found_solution. -/
def updateCheck (ticks : Nat) (s : Interface) : Interface :=
  match s.Solver with
  | some sv =>
      if SolVal.truthy (Star.solution sv) then found_solution ticks s else s
  | none => s

/-- Middle of the RUN branch of Interface.update: drive the solver sv
one evaluate call (animate on) or to completion (animate off), store it
back in self.Solver, then check for a truthy solution. -/
def updateDrive (ticks : Nat) (s : Interface) (sv : Star) : Interface :=
  updateCheck ticks
    { s with
      Solver := some (if s.animate then Star.evaluate sv else Star.runToSolution sv) }

/-- RUN branch of Interface.update: on first entry (self.Solver is
None), record time_start = pg.time.get_ticks() and construct
solver.Star(self.start_cell, self.goal_cell, self.piece_type,
self.barriers); then drive the solver. -/
def updateRun (mk : MkSolver) (ticks : Nat) (s : Interface) : Interface :=
  if s.mode = Mode.RUN then
    match s.Solver with
    | none =>
        updateDrive ticks { s with time_start := ticks }
          (mk s.start_cell s.goal_cell s.piece_type s.barriers)
    | some sv => updateDrive ticks s sv
  else s

/-- Interface.update (the Surf drawing calls are display-only and
omitted): run continuous painting via add_barriers, then the RUN-mode
solver driving. -/
def update (mk : MkSolver) (ticks : Nat) (m : Nat × Nat) (s0 : Interface) : Interface :=
  updateRun mk ticks (add_barriers m s0)

/-- The state after Interface.__init__ (which calls reset()): animate
off, piece "rook", full reset. -/
def init : Interface :=
  { animate := false
    piece_type := "rook"
    start_cell := none
    goal_cell := none
    barriers := setup_barriers
    mode := Mode.START
    add_barrier := false
    del_barrier := false
    Solver := none
    solution := []
    time_start := 0
    time_end := 0 }

/-- One step of the session: either an input event handled by get_event,
or one frame update (with an arbitrary solver oracle, tick count and
pointer position). -/
inductive Step : Interface → Interface → Prop where
  | event : ∀ (e : PgEvent) (s : Interface), Step s (get_event e s)
  | frame : ∀ (mk : MkSolver) (ticks : Nat) (m : Nat × Nat) (s : Interface),
      Step s (update mk ticks m s)

/-- States reachable from the freshly constructed Interface. -/
def Reachable (s : Interface) : Prop :=
  Relation.ReflTransGen Step init s

/-- The special-cell invariant of the spec: whenever defined, start and
goal are distinct, and neither is a barrier cell. -/
def SpecialCellsOK (s : Interface) : Prop :=
  (∀ c d : Cell, s.start_cell = some c → s.goal_cell = some d → c ≠ d) ∧
    (∀ c : Cell, s.start_cell = some c → c ∉ s.barriers) ∧
    (∀ c : Cell, s.goal_cell = some c → c ∉ s.barriers)

/-- The solver that Interface.update drives in RUN mode: the stored one
if it exists, else the one constructed on this invocation. -/
def effSolver (mk : MkSolver) (s : Interface) : Star :=
  match s.Solver with
  | some sv => sv
  | none => mk s.start_cell s.goal_cell s.piece_type s.barriers

/-- Events that trigger none of the actions still live in SOLVED/FAILED
mode: not a reset trigger, not a piece-type or animate toggle (hot-zone
or key), not a secondary click on the current start or goal cell, and
not a button-up that would clear an armed drag flag. -/
def inertWhenDone (s : Interface) : PgEvent → Bool
  | PgEvent.mouseDown l r m hits =>
      if l then
        inGrid m || (!hits.move && !hits.anim && !hits.enter && !hits.reset)
      else if r then
        decide (s.start_cell ≠ some (target m)) &&
          decide (s.goal_cell ≠ some (target m))
      else true
  | PgEvent.mouseUp _ _ => !s.add_barrier && !s.del_barrier
  | PgEvent.keyDown k _ =>
      match k with
      | Key.k1 => false
      | Key.k2 => false
      | Key.k3 => false
      | Key.kd => false
      | Key.kreturn => false
      | Key.ki => false
      | _ => true

/-- Hot-zone hit results reporting no hit anywhere. -/
def hits0 : HotHits := ⟨false, false, false, false, false⟩

/-- A solver oracle that needs one evaluate call and then reports the
two-cell path from (5,5) to (10,10). -/
def mkSolved : MkSolver :=
  fun _ _ _ _ => { fuel := 1, result := SolVal.path [(5, 5), (10, 10)] }

/-- A solver oracle that exhausts its search after two evaluate calls
with no path. -/
def mkFail : MkSolver :=
  fun _ _ _ _ => { fuel := 2, result := SolVal.noSolution }

/-- Left click at pixel (110,110): places the start at cell (5,5). -/
def st1 : Interface := get_event (PgEvent.mouseDown true false (110, 110) hits0) init

/-- Left click at pixel (210,210): places the goal at cell (10,10). -/
def st2 : Interface := get_event (PgEvent.mouseDown true false (210, 210) hits0) st1

/-- Left click at pixel (70,70) in BARRIER mode: arms painting. -/
def st3 : Interface := get_event (PgEvent.mouseDown true false (70, 70) hits0) st2

/-- One frame with the pointer still at (70,70): paints barrier (3,3). -/
def st4 : Interface := update mkSolved 0 (70, 70) st3

/-- Button released: disarms painting. -/
def st5 : Interface := get_event (PgEvent.mouseUp 1 (70, 70)) st4

/-- Spacebar: enters RUN mode. -/
def st6 : Interface := get_event (PgEvent.keyDown Key.kspace (0, 0)) st5

/-- One non-animated frame in RUN mode: the solver runs to completion
and the session reaches SOLVED. -/
def solvedState : Interface := update mkSolved 5 (0, 0) st6

/-- A RUN-mode state about to drive a freshly constructed solver. -/
def runState : Interface := { init with mode := Mode.RUN }

theorem specialOK_of_fields {s t : Interface} (h1 : t.start_cell = s.start_cell)
    (h2 : t.goal_cell = s.goal_cell) (h3 : t.barriers = s.barriers)
    (h : SpecialCellsOK s) : SpecialCellsOK t := by
  obtain ⟨ha, hb, hc⟩ := h
  refine ⟨fun c d hsc hgc => ?_, fun c hsc => ?_, fun c hgc => ?_⟩
  · exact ha c d (h1 ▸ hsc) (h2 ▸ hgc)
  · rw [h3]; exact hb c (h1 ▸ hsc)
  · rw [h3]; exact hc c (h2 ▸ hgc)

/-- A pointer position inside the playable rect maps to an interior
cell, never to a border cell. -/
theorem target_not_in_border (m : Nat × Nat) (h : inGrid m = true) :
    target m ∉ setup_barriers := by
  have h' : 20 ≤ m.1 ∧ m.1 < 420 ∧ 20 ≤ m.2 ∧ m.2 < 260 := of_decide_eq_true h
  intro hmem
  simp only [setup_barriers, target, Finset.mem_union, Finset.mem_product, Finset.mem_Icc,
    Finset.mem_insert, Finset.mem_singleton] at hmem
  omega

theorem sc_reset (b : Bool) {s : Interface} (h : SpecialCellsOK s) :
    SpecialCellsOK (reset b s) := by
  cases b
  · exact specialOK_of_fields rfl rfl rfl h
  · refine ⟨fun c d hsc hgc => ?_, fun c hsc => ?_, fun c hgc => ?_⟩
    · simp [reset] at hsc
    · simp [reset] at hsc
    · simp [reset] at hgc

theorem sc_toggle_piece (ind : Option Nat) {s : Interface} (h : SpecialCellsOK s) :
    SpecialCellsOK (toggle_piece ind s) := by
  unfold toggle_piece
  split
  · exact specialOK_of_fields rfl rfl rfl h
  · exact h

theorem sc_toggle_animate {s : Interface} (h : SpecialCellsOK s) :
    SpecialCellsOK (toggle_animate s) := by
  unfold toggle_animate
  split
  · exact specialOK_of_fields rfl rfl rfl h
  · exact h

theorem sc_left (m : Nat × Nat) (hits : HotHits) {s : Interface}
    (h : SpecialCellsOK s) : SpecialCellsOK (left_button_clicked m hits s) := by
  unfold left_button_clicked
  split
  · split
    · -- START mode
      split
      · rename_i hcond
        obtain ⟨hne, hmem⟩ := hcond
        refine ⟨fun c d hsc hgc => ?_, fun c hsc => ?_, fun c hgc => h.2.2 c hgc⟩
        · have hsc' : some (target m) = some c := hsc
          obtain rfl := Option.some.inj hsc'
          have hgc' : s.goal_cell = some d := hgc
          intro hcd
          exact hne (by rw [hgc', hcd])
        · have hsc' : some (target m) = some c := hsc
          obtain rfl := Option.some.inj hsc'
          exact hmem
      · exact h
    · -- GOAL mode
      split
      · rename_i hcond
        obtain ⟨hne, hmem⟩ := hcond
        refine ⟨fun c d hsc hgc => ?_, fun c hsc => h.2.1 c hsc, fun c hgc => ?_⟩
        · have hgc' : some (target m) = some d := hgc
          obtain rfl := Option.some.inj hgc'
          have hsc' : s.start_cell = some c := hsc
          intro hcd
          exact hne (by rw [hsc', hcd])
        · have hgc' : some (target m) = some c := hgc
          obtain rfl := Option.some.inj hgc'
          exact hmem
      · exact h
    · -- BARRIER mode: only the drag flag changes
      exact specialOK_of_fields rfl rfl rfl h
    · exact h
  · split
    · exact sc_toggle_piece none h
    · split
      · exact sc_toggle_animate h
      · split
        · exact specialOK_of_fields rfl rfl rfl h
        · split
          · split
            · exact sc_reset true h
            · split
              · exact sc_reset false h
              · exact h
          · exact h

theorem sc_right (m : Nat × Nat) {s : Interface} (h : SpecialCellsOK s) :
    SpecialCellsOK (right_button_clicked m s) := by
  unfold right_button_clicked
  split
  · split
    · exact ⟨fun c d hsc _ => Option.noConfusion hsc,
        fun c hsc => Option.noConfusion hsc, fun c hgc => h.2.2 c hgc⟩
    · split
      · exact ⟨fun c d _ hgc => Option.noConfusion hgc,
          fun c hsc => h.2.1 c hsc, fun c hgc => Option.noConfusion hgc⟩
      · split
        · exact specialOK_of_fields rfl rfl rfl h
        · exact h
  · exact h

theorem sc_hotkeys (k : Key) {s : Interface} (h : SpecialCellsOK s) :
    SpecialCellsOK (hotkeys k s) := by
  unfold hotkeys
  split
  · exact sc_toggle_piece _ h
  · split
    · exact sc_toggle_animate h
    · split
      · exact specialOK_of_fields rfl rfl rfl h
      · split
        · split
          · exact sc_reset true h
          · split
            · exact sc_reset false h
            · exact h
        · exact h

theorem sc_get_event (e : PgEvent) {s : Interface} (h : SpecialCellsOK s) :
    SpecialCellsOK (get_event e s) := by
  cases e with
  | mouseDown l r m hits =>
      simp only [get_event]
      split
      · exact sc_left m hits h
      · split
        · exact sc_right m h
        · exact h
  | mouseUp b m => exact specialOK_of_fields rfl rfl rfl h
  | keyDown k m => exact sc_hotkeys k h

theorem sc_add_barriers (m : Nat × Nat) {s : Interface} (h : SpecialCellsOK s) :
    SpecialCellsOK (add_barriers m s) := by
  unfold add_barriers
  split
  · split
    · split
      · rename_i hcond
        obtain ⟨hsne, hgne⟩ := hcond
        split
        · refine ⟨h.1, fun c hsc hcmem => ?_, fun c hgc hcmem => ?_⟩
          · rcases Finset.mem_insert.mp hcmem with rfl | hmem
            · exact hsne hsc
            · exact h.2.1 c hsc hmem
          · rcases Finset.mem_insert.mp hcmem with rfl | hmem
            · exact hgne hgc
            · exact h.2.2 c hgc hmem
        · split
          · exact ⟨h.1, fun c hsc hcmem => h.2.1 c hsc (Finset.mem_of_mem_erase hcmem),
              fun c hgc hcmem => h.2.2 c hgc (Finset.mem_of_mem_erase hcmem)⟩
          · exact h
      · exact h
    · exact h
  · exact h

theorem found_solution_fields (t : Nat) (s : Interface) :
    (found_solution t s).start_cell = s.start_cell ∧
      (found_solution t s).goal_cell = s.goal_cell ∧
      (found_solution t s).barriers = s.barriers := by
  rcases hS : s.Solver with _ | sv
  · simp [found_solution, hS]
  · rcases hV : Star.solution sv with _ | _ | p <;> simp [found_solution, hS, hV]

theorem updateCheck_fields (t : Nat) (s : Interface) :
    (updateCheck t s).start_cell = s.start_cell ∧
      (updateCheck t s).goal_cell = s.goal_cell ∧
      (updateCheck t s).barriers = s.barriers := by
  rcases hS : s.Solver with _ | sv
  · simp [updateCheck, hS]
  · simp only [updateCheck, hS]
    split
    · exact found_solution_fields t s
    · exact ⟨rfl, rfl, rfl⟩

theorem updateDrive_fields (t : Nat) (s : Interface) (sv : Star) :
    (updateDrive t s sv).start_cell = s.start_cell ∧
      (updateDrive t s sv).goal_cell = s.goal_cell ∧
      (updateDrive t s sv).barriers = s.barriers := by
  unfold updateDrive
  exact updateCheck_fields t _

theorem updateRun_fields (mk : MkSolver) (t : Nat) (s : Interface) :
    (updateRun mk t s).start_cell = s.start_cell ∧
      (updateRun mk t s).goal_cell = s.goal_cell ∧
      (updateRun mk t s).barriers = s.barriers := by
  unfold updateRun
  split
  · split
    · exact updateDrive_fields t _ _
    · exact updateDrive_fields t _ _
  · exact ⟨rfl, rfl, rfl⟩

theorem sc_update (mk : MkSolver) (t : Nat) (m : Nat × Nat) {s : Interface}
    (h : SpecialCellsOK s) : SpecialCellsOK (update mk t m s) := by
  unfold update
  have hf := updateRun_fields mk t (add_barriers m s)
  exact specialOK_of_fields hf.1 hf.2.1 hf.2.2 (sc_add_barriers m h)

theorem sc_step {a b : Interface} (hstep : Step a b) (h : SpecialCellsOK a) :
    SpecialCellsOK b := by
  cases hstep with
  | event e s => exact sc_get_event e h
  | frame mk t m s => exact sc_update mk t m h

theorem sc_init : SpecialCellsOK init := by
  refine ⟨fun c d hsc hgc => ?_, fun c hsc => ?_, fun c hgc => ?_⟩
  · simp [init] at hsc
  · simp [init] at hsc
  · simp [init] at hgc

theorem border_reset (b : Bool) {s : Interface} (h : setup_barriers ⊆ s.barriers) :
    setup_barriers ⊆ (reset b s).barriers := by
  cases b
  · exact h
  · simp [reset]

theorem border_toggle_piece (ind : Option Nat) {s : Interface}
    (h : setup_barriers ⊆ s.barriers) :
    setup_barriers ⊆ (toggle_piece ind s).barriers := by
  unfold toggle_piece
  split
  · exact h
  · exact h

theorem border_toggle_animate {s : Interface} (h : setup_barriers ⊆ s.barriers) :
    setup_barriers ⊆ (toggle_animate s).barriers := by
  unfold toggle_animate
  split
  · exact h
  · exact h

theorem border_left (m : Nat × Nat) (hits : HotHits) {s : Interface}
    (h : setup_barriers ⊆ s.barriers) :
    setup_barriers ⊆ (left_button_clicked m hits s).barriers := by
  unfold left_button_clicked
  split
  · split
    · split
      · exact h
      · exact h
    · split
      · exact h
      · exact h
    · exact h
    · exact h
  · split
    · exact border_toggle_piece none h
    · split
      · exact border_toggle_animate h
      · split
        · exact h
        · split
          · split
            · exact border_reset true h
            · split
              · exact border_reset false h
              · exact h
          · exact h

theorem border_right (m : Nat × Nat) {s : Interface}
    (h : setup_barriers ⊆ s.barriers) :
    setup_barriers ⊆ (right_button_clicked m s).barriers := by
  unfold right_button_clicked
  split
  · split
    · exact h
    · split
      · exact h
      · split
        · exact h
        · exact h
  · exact h

theorem border_hotkeys (k : Key) {s : Interface}
    (h : setup_barriers ⊆ s.barriers) :
    setup_barriers ⊆ (hotkeys k s).barriers := by
  unfold hotkeys
  split
  · exact border_toggle_piece _ h
  · split
    · exact border_toggle_animate h
    · split
      · exact h
      · split
        · split
          · exact border_reset true h
          · split
            · exact border_reset false h
            · exact h
        · exact h

theorem border_get_event (e : PgEvent) {s : Interface}
    (h : setup_barriers ⊆ s.barriers) :
    setup_barriers ⊆ (get_event e s).barriers := by
  cases e with
  | mouseDown l r m hits =>
      simp only [get_event]
      split
      · exact border_left m hits h
      · split
        · exact border_right m h
        · exact h
  | mouseUp b m => exact h
  | keyDown k m => exact border_hotkeys k h

theorem border_add_barriers (m : Nat × Nat) {s : Interface}
    (h : setup_barriers ⊆ s.barriers) :
    setup_barriers ⊆ (add_barriers m s).barriers := by
  unfold add_barriers
  split
  · split
    · rename_i hgrid
      split
      · split
        · exact h.trans (Finset.subset_insert _ _)
        · split
          · exact (Finset.subset_erase).mpr ⟨h, target_not_in_border m hgrid⟩
          · exact h
      · exact h
    · exact h
  · exact h

theorem border_update (mk : MkSolver) (t : Nat) (m : Nat × Nat) {s : Interface}
    (h : setup_barriers ⊆ s.barriers) :
    setup_barriers ⊆ (update mk t m s).barriers := by
  unfold update
  rw [(updateRun_fields mk t (add_barriers m s)).2.2]
  exact border_add_barriers m h

theorem border_step {a b : Interface} (hstep : Step a b)
    (h : setup_barriers ⊆ a.barriers) : setup_barriers ⊆ b.barriers := by
  cases hstep with
  | event e s => exact border_get_event e h
  | frame mk t m s => exact border_update mk t m h

/-- The scripted session leading to solvedState consists of legal
steps. -/
theorem solvedState_reachable : Reachable solvedState := by
  refine Relation.ReflTransGen.tail ?_ (Step.frame mkSolved 5 (0, 0) st6)
  refine Relation.ReflTransGen.tail ?_
    (Step.event (PgEvent.keyDown Key.kspace (0, 0)) st5)
  refine Relation.ReflTransGen.tail ?_ (Step.event (PgEvent.mouseUp 1 (70, 70)) st4)
  refine Relation.ReflTransGen.tail ?_ (Step.frame mkSolved 0 (70, 70) st3)
  refine Relation.ReflTransGen.tail ?_
    (Step.event (PgEvent.mouseDown true false (70, 70) hits0) st2)
  refine Relation.ReflTransGen.tail ?_
    (Step.event (PgEvent.mouseDown true false (210, 210) hits0) st1)
  exact Relation.ReflTransGen.single
    (Step.event (PgEvent.mouseDown true false (110, 110) hits0) init)

/-- Claim C1: at every reachable state of the session, whenever start
and goal are defined they are distinct and neither lies in the barriers
set; every operation (event handling and frame updates) preserves this
invariant. -/
theorem c1_special_cells_invariant (s : Interface) (h : Reachable s) :
    SpecialCellsOK s := by
  induction h with
  | refl => exact sc_init
  | tail _ hstep ih => exact sc_step hstep ih

/-- Witness for C1 at the end of a concrete session that placed both
special cells and painted a barrier. -/
theorem c1_special_cells_invariant_witness : SpecialCellsOK solvedState :=
  c1_special_cells_invariant solvedState solvedState_reachable

/-- Claim C2: over every sequence of session steps (in particular every
sequence of mouse painting and erasing actions in BARRIER mode), each
cell of the fixed two-cell-thick border stays in the barriers set; no
step removes a border cell. -/
theorem c2_border_permanent (s t : Interface)
    (hsteps : Relation.ReflTransGen Step s t)
    (h : setup_barriers ⊆ s.barriers) : setup_barriers ⊆ t.barriers := by
  induction hsteps with
  | refl => exact h
  | tail _ hstep ih => exact border_step hstep ih

/-- Witness for C2: the border survives a concrete session that painted
a barrier cell. -/
theorem c2_border_permanent_witness : setup_barriers ⊆ solvedState.barriers :=
  c2_border_permanent init solvedState solvedState_reachable
    (Finset.Subset.refl setup_barriers)

/-- Claim C3 counterexample: a reachable SOLVED state (start (5,5), goal
(10,10), user barrier (3,3), solution stored) on which a partial reset
keeps the start and goal cells, keeps the user barrier, and keeps the
stored solution, contrary to the claim. -/
theorem c3_partial_reset_counterexample :
    Reachable solvedState ∧
      (solvedState.mode = Mode.SOLVED ∧
        (reset false solvedState).start_cell = some (5, 5) ∧
        (reset false solvedState).goal_cell = some (10, 10) ∧
        ((3 : Int), (3 : Int)) ∈ (reset false solvedState).barriers ∧
        ((3 : Int), (3 : Int)) ∉ setup_barriers ∧
        (reset false solvedState).solution ≠ []) :=
  ⟨solvedState_reachable, by decide⟩

/-- Claim C3 (amended): triggering a partial reset (the i key or the
partial-reset hot-zone) from a SOLVED or FAILED state sets the mode to
BARRIER and discards the solver instance, and leaves the barriers, the
start cell, the goal cell, and the stored solution unchanged. -/
theorem c3_partial_reset_amended (s : Interface)
    (h : s.mode = Mode.SOLVED ∨ s.mode = Mode.FAILED) :
    (∀ m : Nat × Nat,
      get_event (PgEvent.keyDown Key.ki m) s =
        { s with Solver := none, mode := Mode.BARRIER }) ∧
    (∀ (m : Nat × Nat) (hits : HotHits), inGrid m = false → hits.move = false →
      hits.anim = false → hits.enter = false → hits.reset = true →
      get_event (PgEvent.mouseDown true false m hits) s =
        { s with Solver := none, mode := Mode.BARRIER }) := by
  constructor
  · intro m
    rcases h with h | h <;> simp [get_event, hotkeys, reset, h]
  · intro m hits hg hmv ha he hr
    rcases h with h | h <;>
      simp [get_event, left_button_clicked, reset, h, hg, hmv, ha, he, hr]

/-- Witness for the amended C3 at the reachable SOLVED state. -/
theorem c3_partial_reset_amended_witness :
    get_event (PgEvent.keyDown Key.ki (0, 0)) solvedState =
      { solvedState with Solver := none, mode := Mode.BARRIER } :=
  (c3_partial_reset_amended solvedState (Or.inl (by decide))).1 (0, 0)

/-- Claim C4 counterexample: in a reachable SOLVED state the d key —
neither reset trigger — still toggles the animate flag, so the reset
triggers are not the only state-changing events. -/
theorem c4_done_states_counterexample :
    Reachable solvedState ∧
      (solvedState.mode = Mode.SOLVED ∧
        (get_event (PgEvent.keyDown Key.kd (0, 0)) solvedState).animate ≠
          solvedState.animate) :=
  ⟨solvedState_reachable, by decide⟩

/-- Claim C4 (amended): while the mode is SOLVED or FAILED, the events
that can change session state are the two reset triggers, the
piece-type selection events (keys 1/2/3 and the piece hot-zone), the
animate toggles (key d and the animate hot-zone), a secondary click on
the current start or goal cell, and a button-up clearing an armed drag
flag; every event outside those classes leaves the whole state
unchanged. -/
theorem c4_done_states_inert (s : Interface) (e : PgEvent)
    (hmode : s.mode = Mode.SOLVED ∨ s.mode = Mode.FAILED)
    (hinert : inertWhenDone s e = true) : get_event e s = s := by
  cases e with
  | mouseDown l r m hits =>
      cases l with
      | true =>
          have hcases : inGrid m = true ∨
              (hits.move = false ∧ hits.anim = false ∧ hits.enter = false ∧
                hits.reset = false) := by
            simpa [inertWhenDone, and_assoc] using hinert
          rcases hcases with hg | ⟨h1, h2, h3, h4⟩
          · rcases hmode with h | h <;>
              simp [get_event, left_button_clicked, hg, h]
          · rcases hmode with h | h <;>
              simp [get_event, left_button_clicked, h, h1, h2, h3, h4]
      | false =>
          cases r with
          | false => simp [get_event]
          | true =>
              have hf : s.start_cell ≠ some (target m) ∧
                  s.goal_cell ≠ some (target m) := by
                simpa [inertWhenDone, Bool.and_eq_true] using hinert
              rcases hmode with h | h <;>
                simp [get_event, right_button_clicked, h, hf.1, hf.2]
  | mouseUp b m =>
      have hf : s.add_barrier = false ∧ s.del_barrier = false := by
        simpa [inertWhenDone, Bool.and_eq_true] using hinert
      obtain ⟨h1, h2⟩ := hf
      cases s
      simp only [get_event]
      simp_all
  | keyDown k m =>
      cases k <;> simp [inertWhenDone] at hinert <;> rcases hmode with h | h <;>
        simp [get_event, hotkeys, h]

/-- Witness for the amended C4: an unbound key in the reachable SOLVED
state changes nothing. -/
theorem c4_done_states_inert_witness :
    get_event (PgEvent.keyDown Key.kother (0, 0)) solvedState = solvedState :=
  c4_done_states_inert solvedState (PgEvent.keyDown Key.kother (0, 0))
    (Or.inl (by decide)) (by decide)

theorem runLoop_done : ∀ (n : Nat) (sv : Star), sv.fuel < n →
    SolVal.truthy sv.result = true →
    runLoop n sv = { fuel := 0, result := sv.result } := by
  intro n
  induction n with
  | zero => intro sv h htr; omega
  | succ n ih =>
      intro sv hlt htr
      unfold runLoop
      split
      · rename_i hsol
        have h0 : sv.fuel = 0 := by
          by_contra hne
          rw [Star.solution, if_neg hne] at hsol
          simp [SolVal.truthy] at hsol
        cases sv
        simp_all
      · rename_i hsol
        have hne : sv.fuel ≠ 0 := by
          intro h0
          rw [Star.solution, if_pos h0] at hsol
          exact hsol htr
        rw [ih (Star.evaluate sv) (by simp [Star.evaluate]; omega) htr]
        rfl

theorem runToSolution_done (sv : Star) (htr : SolVal.truthy sv.result = true) :
    Star.runToSolution sv = { fuel := 0, result := sv.result } :=
  runLoop_done (sv.fuel + 1) sv (Nat.lt_succ_self _) htr

theorem add_barriers_not_barrier {m : Nat × Nat} {s : Interface}
    (h : s.mode ≠ Mode.BARRIER) : add_barriers m s = s := by
  unfold add_barriers
  rw [if_neg h]

theorem found_solution_solver (t : Nat) (s : Interface) :
    (found_solution t s).Solver = s.Solver := by
  rcases hS : s.Solver with _ | sv
  · simp [found_solution, hS]
  · rcases hV : Star.solution sv with _ | _ | p <;> simp [found_solution, hS, hV]

/-- Behaviour of the middle and final statements of the RUN branch of
Interface.update, for any state and solver: animate off drives the
solver to completion and ends in SOLVED/FAILED according to its result;
animate on performs exactly one evaluate call and only transitions when
that made the solution non-pending. -/
theorem updateDrive_spec (t : Nat) (s : Interface) (sv : Star) :
    (s.animate = false → SolVal.truthy sv.result = true →
      ((sv.result = SolVal.noSolution →
          (updateDrive t s sv).mode = Mode.FAILED) ∧
        (∀ p : List Cell, sv.result = SolVal.path p →
          (updateDrive t s sv).mode = Mode.SOLVED ∧
            (updateDrive t s sv).solution = p))) ∧
    (s.animate = true →
      ((updateDrive t s sv).Solver = some (Star.evaluate sv) ∧
        (SolVal.truthy (Star.solution (Star.evaluate sv)) = false →
          (updateDrive t s sv).mode = s.mode) ∧
        (Star.solution (Star.evaluate sv) = SolVal.noSolution →
          (updateDrive t s sv).mode = Mode.FAILED) ∧
        (∀ p : List Cell, Star.solution (Star.evaluate sv) = SolVal.path p →
          p ≠ [] →
          (updateDrive t s sv).mode = Mode.SOLVED ∧
            (updateDrive t s sv).solution = p))) := by
  constructor
  · intro hA htr
    have hdrv : (if s.animate then Star.evaluate sv else Star.runToSolution sv) =
        Star.runToSolution sv := by simp [hA]
    constructor
    · intro hres
      unfold updateDrive
      rw [hdrv, runToSolution_done sv htr, hres]
      simp [updateCheck, found_solution, Star.solution, SolVal.truthy]
    · intro p hres
      have hp : p.isEmpty = false := by
        rw [hres] at htr
        simpa [SolVal.truthy] using htr
      unfold updateDrive
      rw [hdrv, runToSolution_done sv htr, hres]
      simp [updateCheck, found_solution, Star.solution, SolVal.truthy, hp]
  · intro hA
    have hdrv : (if s.animate then Star.evaluate sv else Star.runToSolution sv) =
        Star.evaluate sv := by simp [hA]
    refine ⟨?_, ?_, ?_, ?_⟩
    · unfold updateDrive
      rw [hdrv]
      rcases htr : SolVal.truthy (Star.solution (Star.evaluate sv)) with _ | _
      · simp [updateCheck, htr]
      · simp [updateCheck, htr, found_solution_solver]
    · intro htr
      unfold updateDrive
      rw [hdrv]
      simp [updateCheck, htr]
    · intro hres
      unfold updateDrive
      rw [hdrv]
      simp [updateCheck, found_solution, hres, SolVal.truthy]
    · intro p hres hp
      unfold updateDrive
      rw [hdrv]
      simp [updateCheck, found_solution, hres, SolVal.truthy, hp]

/-- Claim C5: with mode RUN and animate off, one update invocation
drives the solver to completion (evaluate in a loop until the solution
is non-pending) and ends, in that same invocation, in FAILED on the
no-path sentinel and in SOLVED on a found path (which is stored); with
animate on, the invocation performs exactly one evaluate call, stays in
RUN while the solution is still pending, and transitions to
SOLVED/FAILED on the first invocation whose solution is non-pending. -/
theorem c5_solver_driving (mk : MkSolver) (t : Nat) (m : Nat × Nat)
    (s : Interface) (hmode : s.mode = Mode.RUN) :
    (s.animate = false → SolVal.truthy (effSolver mk s).result = true →
      (((effSolver mk s).result = SolVal.noSolution →
          (update mk t m s).mode = Mode.FAILED) ∧
        (∀ p : List Cell, (effSolver mk s).result = SolVal.path p →
          (update mk t m s).mode = Mode.SOLVED ∧
            (update mk t m s).solution = p))) ∧
    (s.animate = true →
      ((update mk t m s).Solver = some (Star.evaluate (effSolver mk s)) ∧
        (SolVal.truthy (Star.solution (Star.evaluate (effSolver mk s))) = false →
          (update mk t m s).mode = Mode.RUN) ∧
        (Star.solution (Star.evaluate (effSolver mk s)) = SolVal.noSolution →
          (update mk t m s).mode = Mode.FAILED) ∧
        (∀ p : List Cell,
          Star.solution (Star.evaluate (effSolver mk s)) = SolVal.path p →
          p ≠ [] →
          (update mk t m s).mode = Mode.SOLVED ∧
            (update mk t m s).solution = p))) := by
  have hnb : s.mode ≠ Mode.BARRIER := by rw [hmode]; decide
  have hupd : update mk t m s = updateRun mk t s := by
    rw [update, add_barriers_not_barrier hnb]
  rcases hS : s.Solver with _ | sv
  · have h2 : updateRun mk t s =
        updateDrive t { s with time_start := t } (effSolver mk s) := by
      simp [updateRun, hmode, hS, effSolver]
    rw [hupd, h2]
    have hspec := updateDrive_spec t { s with time_start := t } (effSolver mk s)
    refine ⟨hspec.1, fun hA => ?_⟩
    obtain ⟨b1, b2, b3, b4⟩ := hspec.2 hA
    exact ⟨b1, fun htr => (b2 htr).trans hmode, b3, b4⟩
  · have h2 : updateRun mk t s = updateDrive t s (effSolver mk s) := by
      simp [updateRun, hmode, hS, effSolver]
    rw [hupd, h2]
    have hspec := updateDrive_spec t s (effSolver mk s)
    refine ⟨hspec.1, fun hA => ?_⟩
    obtain ⟨b1, b2, b3, b4⟩ := hspec.2 hA
    exact ⟨b1, fun htr => (b2 htr).trans hmode, b3, b4⟩

/-- Witness for C5: concrete blocking runs ending in FAILED and in
SOLVED with the path stored. -/
theorem c5_solver_driving_witness :
    (update mkFail 0 (0, 0) runState).mode = Mode.FAILED ∧
      (update mkSolved 0 (0, 0) runState).mode = Mode.SOLVED ∧
      (update mkSolved 0 (0, 0) runState).solution = [(5, 5), (10, 10)] := by
  refine ⟨((c5_solver_driving mkFail 0 (0, 0) runState rfl).1 rfl
      (by decide)).1 (by decide), ?_, ?_⟩
  · exact (((c5_solver_driving mkSolved 0 (0, 0) runState rfl).1 rfl
      (by decide)).2 [(5, 5), (10, 10)] (by decide)).1
  · exact (((c5_solver_driving mkSolved 0 (0, 0) runState rfl).1 rfl
      (by decide)).2 [(5, 5), (10, 10)] (by decide)).2

/-- Claim C6: while the mode is RUN, no pointer or key event changes the
grid state (start, goal, barriers) or the mode; in particular a
secondary click has no effect. -/
theorem c6_run_locked (s : Interface) (e : PgEvent) (h : s.mode = Mode.RUN) :
    (get_event e s).mode = Mode.RUN ∧
      (get_event e s).start_cell = s.start_cell ∧
      (get_event e s).goal_cell = s.goal_cell ∧
      (get_event e s).barriers = s.barriers := by
  cases e with
  | mouseDown l r m hits =>
      cases l with
      | true => simp [get_event, left_button_clicked, toggle_piece, toggle_animate, h]
      | false =>
          cases r with
          | true => simp [get_event, right_button_clicked, h]
          | false => simp [get_event, h]
  | mouseUp b m => simp [get_event, h]
  | keyDown k m =>
      cases k <;> simp [get_event, hotkeys, toggle_piece, toggle_animate, h]

/-- Witness for C6: a primary click inside the grid during RUN changes
nothing observable. -/
theorem c6_run_locked_witness :
    (get_event (PgEvent.mouseDown true false (30, 30) hits0) runState).mode =
      Mode.RUN :=
  (c6_run_locked runState (PgEvent.mouseDown true false (30, 30) hits0) rfl).1

/-- Claim C7, evaluated at the failing input: options[0] is "rook", but
pressing key 1 outside RUN mode with piece_type "rook" cycles to
"queen" instead of selecting options[0], because toggle_piece treats
the supplied index 0 as falsy. -/
theorem c7_key1_divergence :
    init.mode ≠ Mode.RUN ∧ init.piece_type = "rook" ∧
      options.getD 0 "" = "rook" ∧
      (get_event (PgEvent.keyDown Key.k1 (0, 0)) init).piece_type = "queen" := by
  decide

theorem toggle_piece_none_spec (s : Interface) (h : s.mode ≠ Mode.RUN) :
    (toggle_piece none s).piece_type =
      options.getD ((options.indexOf s.piece_type + 1) % options.length) "rook" ∧
      (toggle_piece none s).mode = s.mode := by
  simp [toggle_piece, h, pieceIdx]

theorem options_cycle3 : ∀ p ∈ options,
    options.getD
      ((options.indexOf
        (options.getD
          ((options.indexOf
            (options.getD ((options.indexOf p + 1) % options.length) "rook") + 1) %
            options.length) "rook") + 1) % options.length) "rook" = p := by
  decide

/-- Claim C8 counterexample: the options list has three piece types, so
N + 1 = 4 toggle applications land one step past the original
selection: starting from "rook" they end at "queen". -/
theorem c8_cycle_counterexample :
    options.length + 1 = 4 ∧
      (toggle_piece none (toggle_piece none (toggle_piece none
        (toggle_piece none init)))).piece_type ≠ init.piece_type := by
  decide

/-- Claim C8 (amended): applying the cyclic piece-type toggle N times,
where N = 3 is the number of piece types, returns the selection to its
original value, in any state not in RUN mode whose piece type is one of
the options. -/
theorem c8_cycle_amended (s : Interface) (h : s.mode ≠ Mode.RUN)
    (hp : s.piece_type ∈ options) :
    (toggle_piece none (toggle_piece none (toggle_piece none s))).piece_type =
      s.piece_type := by
  have t1 := toggle_piece_none_spec s h
  have m1 : (toggle_piece none s).mode ≠ Mode.RUN := by rw [t1.2]; exact h
  have t2 := toggle_piece_none_spec _ m1
  have m2 : (toggle_piece none (toggle_piece none s)).mode ≠ Mode.RUN := by
    rw [t2.2]; exact m1
  have t3 := toggle_piece_none_spec _ m2
  rw [t3.1, t2.1, t1.1]
  exact options_cycle3 s.piece_type hp

/-- Witness for the amended C8 at the initial state. -/
theorem c8_cycle_amended_witness :
    (toggle_piece none (toggle_piece none (toggle_piece none init))).piece_type =
      init.piece_type :=
  c8_cycle_amended init (by decide) (by decide)

/-- The border set is the two-ring frame around the 20-column by 12-row
interior rectangle of cells with columns 1..20 and rows 1..12. -/
theorem setup_barriers_eq :
    setup_barriers =
      (Finset.Icc (-1 : Int) 22 ×ˢ Finset.Icc (-1 : Int) 14) \
        (Finset.Icc (1 : Int) 20 ×ˢ Finset.Icc (1 : Int) 12) := by
  ext c
  simp only [setup_barriers, Finset.mem_union, Finset.mem_product, Finset.mem_Icc,
    Finset.mem_insert, Finset.mem_singleton, Finset.mem_sdiff, not_and, not_le]
  omega

/-- Claim C9 counterexample: within the bordered window, exactly
240 = 20 × 12 cells are absent from the initial barriers set — not
20 × 13 = 260 — and the cell (1,13) that a 13-row interior would
contain is a barrier. -/
theorem c9_interior_counterexample :
    ((Finset.Icc (-1 : Int) 22 ×ˢ Finset.Icc (-1 : Int) 14) \ setup_barriers).card =
        20 * 12 ∧
      ((1 : Int), (13 : Int)) ∈ setup_barriers ∧ (20 * 12 : Nat) ≠ 20 * 13 := by
  have hsub : (Finset.Icc (1 : Int) 20 ×ˢ Finset.Icc (1 : Int) 12) ⊆
      Finset.Icc (-1 : Int) 22 ×ˢ Finset.Icc (-1 : Int) 14 :=
    Finset.product_subset_product
      (Finset.Icc_subset_Icc (by norm_num) (by norm_num))
      (Finset.Icc_subset_Icc (by norm_num) (by norm_num))
  have h1 : (Finset.Icc (-1 : Int) 22 ×ˢ Finset.Icc (-1 : Int) 14) \ setup_barriers =
      Finset.Icc (1 : Int) 20 ×ˢ Finset.Icc (1 : Int) 12 := by
    rw [setup_barriers_eq, Finset.sdiff_sdiff_self_left,
      Finset.inter_eq_right.mpr hsub]
  refine ⟨?_, ?_, by decide⟩
  · rw [h1, Finset.card_product, Int.card_Icc, Int.card_Icc]
    decide
  · rw [setup_barriers_eq]
    decide

/-- Claim C9 (amended): the initial barriers set is exactly the
two-cell-thick frame around a 20-column by 12-row interior: within the
window of columns -1..22 and rows -1..14, precisely the cells of the
rectangle with columns 1..20 and rows 1..12 are absent from the
barriers placed by setup_barriers, and both surrounding rings are
present. -/
theorem c9_interior_amended :
    init.barriers = setup_barriers ∧
      setup_barriers =
        (Finset.Icc (-1 : Int) 22 ×ˢ Finset.Icc (-1 : Int) 14) \
          (Finset.Icc (1 : Int) 20 ×ˢ Finset.Icc (1 : Int) 12) :=
  ⟨rfl, setup_barriers_eq⟩

/-- Claim C10: a button-up event, whichever button is released, sets
both drag flags to false and leaves every other session field (mode,
start, goal, barriers, piece type, animate flag, solver, stored
solution) unchanged. -/
theorem c10_mouseup_clears_flags (s : Interface) (b : Nat) (m : Nat × Nat) :
    (get_event (PgEvent.mouseUp b m) s).add_barrier = false ∧
      (get_event (PgEvent.mouseUp b m) s).del_barrier = false ∧
      (get_event (PgEvent.mouseUp b m) s).mode = s.mode ∧
      (get_event (PgEvent.mouseUp b m) s).start_cell = s.start_cell ∧
      (get_event (PgEvent.mouseUp b m) s).goal_cell = s.goal_cell ∧
      (get_event (PgEvent.mouseUp b m) s).barriers = s.barriers ∧
      (get_event (PgEvent.mouseUp b m) s).piece_type = s.piece_type ∧
      (get_event (PgEvent.mouseUp b m) s).animate = s.animate ∧
      (get_event (PgEvent.mouseUp b m) s).Solver = s.Solver ∧
      (get_event (PgEvent.mouseUp b m) s).solution = s.solution :=
  ⟨rfl, rfl, rfl, rfl, rfl, rfl, rfl, rfl, rfl, rfl⟩

end FindAWay
